import Mathlib

/-!
Verification of the GrokSearch MCP server against its design specification.

The repository's tool surface (`src/grok_search/server.py`), result formatter
(`src/grok_search/utils.py`) and configuration accessors
(`src/search_mcp/config.py`) are embedded from their sources.  The provider
integration layer (`grok_search/providers/grok.py`), the result record type
(`grok_search/providers/base.py`) and the model-preference resolver
(`grok_search/config.py`) are present in the repository only through their
callers and tests; those parts are modelled from the specification, and each
such definition says so in its doc comment.

The model response decoder mirrors Python's `json.loads` restricted to what
the search contract exercises: arrays, objects, strings (with escapes),
numbers (kept as lexemes), booleans and null.
-/

/-- JSON values as produced by decoding a model response.  Numbers keep their
source lexeme because no claim depends on numeric semantics. -/
inductive Json where
  | null : Json
  | bool : Bool → Json
  | num : String → Json
  | str : String → Json
  | arr : List Json → Json
  | obj : List (String × Json) → Json

/-- Whitespace characters accepted between JSON tokens. -/
def isJsonWs (c : Char) : Bool :=
  c = ' ' || c = '\t' || c = '\n' || c = '\r'

/-- Drop leading JSON whitespace. -/
def skipWs : List Char → List Char
  | [] => []
  | c :: cs => if isJsonWs c then skipWs cs else c :: cs

/-- Value of a hexadecimal digit, if the character is one. -/
def hexVal (c : Char) : Option Nat :=
  if c.isDigit then some (c.toNat - 48)
  else if 97 ≤ c.toNat ∧ c.toNat ≤ 102 then some (c.toNat - 87)
  else if 65 ≤ c.toNat ∧ c.toNat ≤ 70 then some (c.toNat - 55)
  else none

/-- Translation of a single-character JSON escape. -/
def escChar (c : Char) : Option Char :=
  if c = '"' then some '"'
  else if c = '\\' then some '\\'
  else if c = '/' then some '/'
  else if c = 'b' then some (Char.ofNat 8)
  else if c = 'f' then some (Char.ofNat 12)
  else if c = 'n' then some '\n'
  else if c = 'r' then some '\r'
  else if c = 't' then some '\t'
  else none

/-- Parse the body of a JSON string after the opening quote; returns the
decoded characters and the remainder after the closing quote. -/
def parseStringBody : Nat → List Char → Option (List Char × List Char)
  | 0, _ => none
  | _, [] => none
  | fuel + 1, c :: rest =>
    if c = '"' then some ([], rest)
    else if c = '\\' then
      match rest with
      | [] => none
      | e :: rest2 =>
        if e = 'u' then
          match rest2 with
          | h1 :: h2 :: h3 :: h4 :: rest3 =>
            match hexVal h1, hexVal h2, hexVal h3, hexVal h4 with
            | some a, some b, some c2, some d =>
              (parseStringBody fuel rest3).map
                (fun p => (Char.ofNat (((a * 16 + b) * 16 + c2) * 16 + d) :: p.1, p.2))
            | _, _, _, _ => none
          | _ => none
        else
          match escChar e with
          | some ec => (parseStringBody fuel rest2).map (fun p => (ec :: p.1, p.2))
          | none => none
    else (parseStringBody fuel rest).map (fun p => (c :: p.1, p.2))

/-- Characters that may occur inside a JSON number lexeme. -/
def isNumChar (c : Char) : Bool :=
  c.isDigit || c = '-' || c = '+' || c = '.' || c = 'e' || c = 'E'

/-- Parse a JSON number, keeping the lexeme. -/
def parseNumber (cs : List Char) : Option (Json × List Char) :=
  match cs.span isNumChar with
  | ([], _) => none
  | (num, rest) => some (.num (String.mk num), rest)

mutual

/-- Parse one JSON value, fuel-bounded. -/
def parseVal : Nat → List Char → Option (Json × List Char)
  | 0, _ => none
  | fuel + 1, cs =>
    match skipWs cs with
    | [] => none
    | c :: rest =>
      if c = 'n' then
        match rest with
        | 'u' :: 'l' :: 'l' :: r => some (.null, r)
        | _ => none
      else if c = 't' then
        match rest with
        | 'r' :: 'u' :: 'e' :: r => some (.bool true, r)
        | _ => none
      else if c = 'f' then
        match rest with
        | 'a' :: 'l' :: 's' :: 'e' :: r => some (.bool false, r)
        | _ => none
      else if c = '"' then
        (parseStringBody (rest.length + 1) rest).map (fun p => (.str (String.mk p.1), p.2))
      else if c = '[' then
        match skipWs rest with
        | ']' :: r => some (.arr [], r)
        | cs2 => (parseItems fuel cs2).map (fun p => (.arr p.1, p.2))
      else if c = '{' then
        match skipWs rest with
        | '}' :: r => some (.obj [], r)
        | cs2 => (parseMembers fuel cs2).map (fun p => (.obj p.1, p.2))
      else if c.isDigit || c = '-' then parseNumber (c :: rest)
      else none

/-- Parse the elements of a non-empty JSON array, fuel-bounded. -/
def parseItems : Nat → List Char → Option (List Json × List Char)
  | 0, _ => none
  | fuel + 1, cs =>
    match parseVal fuel cs with
    | none => none
    | some (v, rest) =>
      match skipWs rest with
      | ',' :: r => (parseItems fuel r).map (fun p => (v :: p.1, p.2))
      | ']' :: r => some ([v], r)
      | _ => none

/-- Parse the members of a non-empty JSON object, fuel-bounded. -/
def parseMembers : Nat → List Char → Option (List (String × Json) × List Char)
  | 0, _ => none
  | fuel + 1, cs =>
    match skipWs cs with
    | '"' :: rest =>
      match parseStringBody (rest.length + 1) rest with
      | none => none
      | some (key, rest2) =>
        match skipWs rest2 with
        | ':' :: rest3 =>
          match parseVal fuel rest3 with
          | none => none
          | some (v, rest4) =>
            match skipWs rest4 with
            | ',' :: r => (parseMembers fuel r).map (fun p => ((String.mk key, v) :: p.1, p.2))
            | '}' :: r => some ([(String.mk key, v)], r)
            | _ => none
        | _ => none
    | _ => none

end

/-- Decode a whole string as one JSON value, mirroring `json.loads`: the value
may be surrounded by whitespace but nothing else. -/
def jsonDecode (s : String) : Option Json :=
  let cs := s.toList
  match parseVal (2 * cs.length + 4) cs with
  | some (j, rest) => if (skipWs rest).isEmpty then some j else none
  | none => none

/-- Strict JSON-array decode of a model response: the decoded value must be an
array. -/
def decodeArray (s : String) : Option (List Json) :=
  match jsonDecode s with
  | some (.arr xs) => some xs
  | _ => none

/-- Backquote character, written by code point to keep it out of the source
text. -/
def backquote : Char := Char.ofNat 96

/-- Helper of the cleanup pass: the longest prefix of the input that ends at
its last closing bracket, or `none` when there is no closing bracket. -/
def keepToLast : List Char → Option (List Char)
  | [] => none
  | c :: cs =>
    match keepToLast cs with
    | some t => some (c :: t)
    | none => if c = ']' then some [c] else none

/-- Modelled from the spec: cleanup of the wrapping artifacts the model may
put around its JSON array (code-fence markers such as a "json" fence line,
leading/trailing prose): keep the span from the first opening bracket to the
last closing bracket, unchanged when no such span exists.  This realises the
"strip common wrapping artifacts" pass of `GrokSearchProvider`
(`grok_search/providers/grok.py`, absent from the snapshot). -/
def cleanupList (cs : List Char) : List Char :=
  let rest := cs.dropWhile (fun c => !(c = '['))
  match keepToLast rest with
  | some t => t
  | none => cs

/-- String form of `cleanupList`. -/
def cleanupResponse (s : String) : String :=
  String.mk (cleanupList s.toList)

/-- Modelled from the spec: two-stage decode of the assistant message — a
strict JSON-array decode, then on failure one retry after stripping wrapping
artifacts. -/
def decodeWithRetry (content : String) : Option (List Json) :=
  match decodeArray content with
  | some xs => some xs
  | none => decodeArray (cleanupResponse content)

/-- The code-fence opening line the model may emit before its array. -/
def fenceOpen : List Char := [backquote, backquote, backquote, 'j', 's', 'o', 'n', '\n']

/-- The code-fence closing line the model may emit after its array. -/
def fenceClose : List Char := ['\n', backquote, backquote, backquote]

/-- Wrap a response in a markdown code fence, as the model sometimes does. -/
def fenceWrap (s : String) : String :=
  String.mk (fenceOpen ++ s.toList ++ fenceClose)

/-- Modelled from the spec: the result record of
`grok_search/providers/base.py` (absent from the snapshot), whose fields are
fixed by its uses in `grok_search/utils.py`: `title`, `url`, `snippet` are
strings, `source` and `published_date` are optional strings. -/
structure SearchResult where
  title : String
  url : String
  snippet : String
  source : Option String
  published_date : Option String
deriving DecidableEq, Repr

/-- Field lookup on a JSON object; `none` on non-objects and absent keys,
mirroring a guarded `entry.get(key)`. -/
def getField (j : Json) (k : String) : Option Json :=
  match j with
  | .obj fields => fields.lookup k
  | _ => none

/-- String value of an optional JSON field: `none` unless the field is
present and holds a string. -/
def strValOf : Option Json → Option String
  | some (.str s) => some s
  | _ => none

/-- Modelled from the spec: a required string field read with an
empty-string default — absent, null and non-string values all give `""`. -/
def jsonGetStr (j : Json) (k : String) : String :=
  (strValOf (getField j k)).getD ""

/-- Modelled from the spec: the snippet of an entry, taken from
`description` and falling back to `snippet`, defaulting to the empty string
and never null. -/
def jsonGetSnippet (j : Json) : String :=
  match strValOf (getField j "description") with
  | some s => s
  | none => (strValOf (getField j "snippet")).getD ""

/-- An entry the provider keeps: it carries a non-empty `title` and a
non-empty `url`. -/
def validEntry (j : Json) : Prop :=
  jsonGetStr j "title" ≠ "" ∧ jsonGetStr j "url" ≠ ""

instance (j : Json) : Decidable (validEntry j) := by
  unfold validEntry; infer_instance

/-- Modelled from the spec: mapping of one decoded entry into a
`SearchResult` — entries missing `title` or `url` are silently dropped,
`description`/`snippet` defaults to the empty string. -/
def toSearchResult (j : Json) : Option SearchResult :=
  let title := jsonGetStr j "title"
  let url := jsonGetStr j "url"
  if title = "" ∨ url = "" then none
  else
    some { title := title, url := url, snippet := jsonGetSnippet j,
           source := strValOf (getField j "source"),
           published_date := strValOf (getField j "published_date") }

/-- The error taxonomy of the specification (in the Python sources the
configuration variant is carried by `ValueError`). -/
inductive ProviderError where
  | missingConfig : String → ProviderError
  | transport : String → ProviderError
  | upstreamFormat : ProviderError
  | invalidInput : String → ProviderError
deriving DecidableEq, Repr

/-- Modelled from the spec: response processing of
`GrokSearchProvider.search` — decode with one cleanup retry, truncate to
`maxResults` preserving order, map entries dropping those without `title` or
`url`; a failed decode is an `UpstreamFormatError`, and `minResults` only
shapes the request payload, never the post-processing. -/
def searchResponse (content : String) (maxResults : Nat) :
    Except ProviderError (List SearchResult) :=
  match decodeWithRetry content with
  | some entries => .ok ((entries.take maxResults).filterMap toSearchResult)
  | none => .error .upstreamFormat

/-- The `grok` section of the configuration file
(`src/search_mcp/config.py`): each setting may be absent, and the empty
string is as good as absent to the accessors (Python truthiness). -/
structure GrokSection where
  api_url : Option String
  api_key : Option String
deriving DecidableEq, Repr

/-- The loaded configuration data of `search_mcp/config.py`; only the fields
the claims touch are carried. -/
structure ConfigData where
  grok : GrokSection
  debug_enabled : Bool
deriving DecidableEq, Repr

/-- Accessor `Config.grok_api_url` of `src/search_mcp/config.py`: the raised
`ValueError` is the `MissingConfigError` of the taxonomy. -/
def grok_api_url (c : ConfigData) : Except ProviderError String :=
  match c.grok.api_url with
  | none => .error (.missingConfig "grok.api_url not configured")
  | some u =>
    if u = "" then .error (.missingConfig "grok.api_url not configured") else .ok u

/-- Accessor `Config.grok_api_key` of `src/search_mcp/config.py`. -/
def grok_api_key (c : ConfigData) : Except ProviderError String :=
  match c.grok.api_key with
  | none => .error (.missingConfig "grok.api_key not configured")
  | some k =>
    if k = "" then .error (.missingConfig "grok.api_key not configured") else .ok k

/-- Modelled from the spec: the model-preference state read by
`grok_search/config.py` (absent from the snapshot) — an environment override,
a persisted per-user file value, and a built-in default, with precedence
environment over file over default. -/
structure ModelStore where
  envModel : Option String
  fileModel : Option String
  defaultModel : String
deriving DecidableEq, Repr

/-- Modelled from the spec: resolution of the model id with the precedence
environment over persisted file over built-in default. -/
def resolveModel (st : ModelStore) : String :=
  match st.envModel with
  | some m => m
  | none =>
    match st.fileModel with
    | some m => m
    | none => st.defaultModel

/-- Modelled from the spec: `Config.set_model` persists the new choice to the
per-user file; the environment and the default are untouched. -/
def set_model (st : ModelStore) (m : String) : ModelStore :=
  { st with fileModel := some m }

/-- The three required strings a tool call resolves once at call start. -/
structure ProviderConfig where
  api_url : String
  api_key : String
  model : String
deriving DecidableEq, Repr

/-- Per-call resolution of the `ProviderConfig`, as done at the top of
`web_search`/`web_fetch` in `src/grok_search/server.py`: url, then key, then
model (the model always resolves thanks to its built-in default). -/
def resolveProviderConfig (c : ConfigData) (st : ModelStore) :
    Except ProviderError ProviderConfig :=
  match grok_api_url c with
  | .error e => .error e
  | .ok u =>
    match grok_api_key c with
    | .error e => .error e
    | .ok k => .ok { api_url := u, api_key := k, model := resolveModel st }

/-- Modelled from the spec: the user-turn payload of a search request — the
query, an optional platform hint, and the requested result-count bounds, all
as natural-language instructions. -/
def searchPayload (query platform : String) (minResults maxResults : Nat) : String :=
  query
    ++ (if platform = "" then "" else " focus search on: " ++ platform)
    ++ " Return between " ++ toString minResults ++ " and "
    ++ toString maxResults ++ " results."

/-- An outbound chat-completion request: one system message (a fixed task
prompt, named by its template) and one user message, no history, no
streaming. -/
structure ChatRequest where
  model : String
  systemTemplate : String
  userContent : String
  stream : Bool
deriving DecidableEq, Repr

/-- Modelled from the spec: the chat-completion request a search call builds
from the `ProviderConfig` it resolved at call start. -/
def buildSearchRequest (pc : ProviderConfig) (query platform : String)
    (minResults maxResults : Nat) : ChatRequest :=
  { model := pc.model, systemTemplate := "search_prompt",
    userContent := searchPayload query platform minResults maxResults,
    stream := false }

/-- Outcome of one upstream chat-completion exchange, as seen by the
provider: the assistant content on HTTP 200, a non-200 status, or a network
failure. -/
inductive UpstreamOutcome where
  | ok : String → UpstreamOutcome
  | httpError : Nat → String → UpstreamOutcome
  | netError : String → UpstreamOutcome
deriving DecidableEq, Repr

/-- User-facing rendering of a taxonomy error, prefixed by its kind. -/
def errorString : ProviderError → String
  | .missingConfig m => "MissingConfigError: " ++ m
  | .transport m => "TransportError: " ++ m
  | .upstreamFormat =>
      "UpstreamFormatError: model output could not be decoded as a JSON array of results"
  | .invalidInput m => "InvalidInputError: " ++ m

/-- Raw message of an error, as Python's `str(e)` would give it. -/
def configErrMsg : ProviderError → String
  | .missingConfig m => m
  | .transport m => m
  | .upstreamFormat => "upstream format error"
  | .invalidInput m => m

/-- One formatted block of `format_search_results`
(`src/grok_search/utils.py`): the header line always, then one line per
truthy field, joined by newlines. -/
def format_one (i : Nat) (r : SearchResult) : String :=
  String.intercalate "\n"
    (["## Result " ++ toString i ++ ": " ++ r.title]
      ++ (if r.url = "" then [] else ["**URL:** " ++ r.url])
      ++ (if r.snippet = "" then [] else ["**Summary:** " ++ r.snippet])
      ++ (match r.source with
          | some s => if s = "" then [] else ["**Source:** " ++ s]
          | none => [])
      ++ (match r.published_date with
          | some s => if s = "" then [] else ["**Published:** " ++ s]
          | none => []))

/-- The `enumerate(results, 1)` loop of `format_search_results`. -/
def format_blocks : Nat → List SearchResult → List String
  | _, [] => []
  | i, r :: rs => format_one i r :: format_blocks (i + 1) rs

/-- Function `format_search_results` of `src/grok_search/utils.py`. -/
def format_search_results (results : List SearchResult) : String :=
  if results.isEmpty then "No results found."
  else String.intercalate "\n\n---\n\n" (format_blocks 1 results)

/-- Modelled from the spec: `GrokSearchProvider.search` as a function of the
upstream outcome — on HTTP 200 the assistant content goes through
`searchResponse` and the kept results through the result formatter; non-200
and network failures surface as `TransportError` strings; every path returns
a string. -/
def provider_search (pc : ProviderConfig) (query platform : String)
    (minResults maxResults : Nat) (outcome : UpstreamOutcome) : String :=
  let _req := buildSearchRequest pc query platform minResults maxResults
  match outcome with
  | .ok content =>
    match searchResponse content maxResults with
    | .ok rs => format_search_results rs
    | .error e => errorString e
  | .httpError status msg =>
      errorString (.transport ("HTTP " ++ toString status ++ ": " ++ msg))
  | .netError msg => errorString (.transport msg)

/-- Modelled from the spec: the fetch URL guard — only `http://` and
`https://` URLs are accepted. -/
def validFetchUrl (url : String) : Bool :=
  "http://".toList.isPrefixOf url.toList || "https://".toList.isPrefixOf url.toList

/-- Modelled from the spec: `GrokSearchProvider.fetch` with its network
activity made explicit — the first component lists the URLs for which an
upstream request was issued.  An invalid URL fails fast with
`InvalidInputError` and issues no request; otherwise one request is made and
the Markdown is passed through with only a non-emptiness check. -/
def fetchCall (url : String) (outcome : UpstreamOutcome) :
    List String × Except ProviderError String :=
  if validFetchUrl url then
    ([url],
      match outcome with
      | .ok content => if content = "" then .error .upstreamFormat else .ok content
      | .httpError status msg =>
          .error (.transport ("HTTP " ++ toString status ++ ": " ++ msg))
      | .netError msg => .error (.transport msg))
  else ([], .error (.invalidInput "URL must start with http:// or https://"))

/-- Modelled from the spec: the string the fetch path hands to the tool
surface. -/
def provider_fetch (url : String) (outcome : UpstreamOutcome) : String :=
  match (fetchCall url outcome).2 with
  | .ok s => s
  | .error e => errorString e

/-- An exception escaping a Python function; a tool operation that is total
from the caller's perspective never produces one. -/
inductive PyException where
  | valueError : String → PyException
  | otherError : String → PyException
deriving DecidableEq, Repr

/-- The `web_search` tool of `src/grok_search/server.py`: configuration
access sits in a try/except that converts a `ValueError` into a
"Configuration error:" string; the provider call itself always returns a
string. -/
def web_search (c : ConfigData) (st : ModelStore) (query platform : String)
    (minResults maxResults : Nat) (outcome : UpstreamOutcome) :
    Except PyException String :=
  match resolveProviderConfig c st with
  | .error e => .ok ("Configuration error: " ++ configErrMsg e)
  | .ok pc => .ok (provider_search pc query platform minResults maxResults outcome)

/-- The `web_fetch` tool of `src/grok_search/server.py`. -/
def web_fetch (c : ConfigData) (st : ModelStore) (url : String)
    (outcome : UpstreamOutcome) : Except PyException String :=
  match resolveProviderConfig c st with
  | .error _e => .ok ("Configuration error: " ++ configErrMsg _e)
  | .ok _pc => .ok (provider_fetch url outcome)

/-- The connection-test record assembled by `get_config_info`
(`src/grok_search/server.py`): status and message strings, the round-trip
time in milliseconds, and the model ids extracted from the `data` array when
any were found (`available_models` is only set when the list is non-empty). -/
structure ConnectionTest where
  status : String
  message : String
  response_time_ms : Nat
  available_models : Option (List Json)

/-- Outcome of the diagnostic `GET /models` request: an HTTP response with
status, body and elapsed milliseconds, a timeout, or a network failure. -/
inductive ModelsOutcome where
  | response : Nat → String → Nat → ModelsOutcome
  | timeout : ModelsOutcome
  | netError : String → ModelsOutcome

/-- The model-list extraction of `get_config_info`: the body must decode to
an object whose `data` field is an array; each element that is an object
carrying an `id` contributes that id. -/
def modelIdsOf (body : String) : Option (Nat × List Json) :=
  match jsonDecode body with
  | some j =>
    match getField j "data" with
    | some (.arr xs) => some (xs.length, xs.filterMap (fun x => getField x "id"))
    | _ => none
  | none => none

/-- The connection test of `get_config_info` (`src/grok_search/server.py`),
with the HTTP exchange abstracted into a `ModelsOutcome`: every internal
failure — configuration, timeout, network, bad status, unparsable body — is
caught and reported in the record. -/
def connection_test (c : ConfigData) (outcome : ModelsOutcome) : ConnectionTest :=
  match grok_api_url c with
  | .error e =>
    { status := "❌ Configuration error", message := configErrMsg e,
      response_time_ms := 0, available_models := none }
  | .ok _ =>
    match grok_api_key c with
    | .error e =>
      { status := "❌ Configuration error", message := configErrMsg e,
        response_time_ms := 0, available_models := none }
    | .ok _ =>
      match outcome with
      | .response status body elapsed =>
        if status = 200 then
          match modelIdsOf body with
          | some (count, ids) =>
            { status := "✅ Connection successful",
              message := "Successfully retrieved model list (HTTP 200), total "
                ++ toString count ++ " models",
              response_time_ms := elapsed,
              available_models := if ids.isEmpty then none else some ids }
          | none =>
            { status := "✅ Connection successful",
              message := "Successfully retrieved model list (HTTP 200)",
              response_time_ms := elapsed, available_models := none }
        else
          { status := "⚠️ Connection abnormal",
            message := "HTTP " ++ toString status,
            response_time_ms := elapsed, available_models := none }
      | .timeout =>
        { status := "❌ Connection timeout",
          message := "Request timeout (10 seconds), please check network connection or API URL",
          response_time_ms := 0, available_models := none }
      | .netError m =>
        { status := "❌ Connection failed", message := "Network error: " ++ m,
          response_time_ms := 0, available_models := none }

/-- Textual rendering of the connection test, standing for the JSON dump the
`get_config_info` tool returns. -/
def render_connection_test (t : ConnectionTest) : String :=
  t.status ++ " | " ++ t.message ++ " | " ++ toString t.response_time_ms ++ "ms"

/-- The `get_config_info` tool of `src/grok_search/server.py` at the tool
boundary: it always returns a string. -/
def get_config_info (c : ConfigData) (outcome : ModelsOutcome) :
    Except PyException String :=
  .ok (render_connection_test (connection_test c outcome))

/-- The `switch_model` tool of `src/grok_search/server.py`: it reads the
previous model, persists the new choice (a persistence failure is caught and
reported), reads the model back, and returns a status string together with
the store the next call will see. -/
def switch_model (st : ModelStore) (m : String) (writeOk : Bool) :
    ModelStore × Except PyException String :=
  if writeOk then
    let st2 := set_model st m
    (st2, .ok ("✅ Success: model switched from " ++ resolveModel st
      ++ " to " ++ resolveModel st2))
  else
    (st, .ok "❌ Failed: could not persist model preference")

/-- State of the configuration file at process startup. -/
inductive ConfigFile where
  | absent : ConfigFile
  | malformed : ConfigFile
  | parsed : ConfigData → ConfigFile
deriving DecidableEq, Repr

/-- Startup loader `Config._load_config` of `src/search_mcp/config.py`: an absent
file raises `FileNotFoundError` and an unparsable file lets
`tomllib.load`'s decode error escape; both abort initialization, and a parsed
file always constructs the singleton. -/
def load_config : ConfigFile → Except PyException ConfigData
  | .absent => .error (.otherError "Configuration file not found: config.toml")
  | .malformed => .error (.otherError "TOMLDecodeError")
  | .parsed d => .ok d

/-- The block layout C10 describes, written independently of
`format_search_results` as one concatenation per field: the header, then the
URL, Summary, Source and Published lines exactly for the non-empty fields. -/
def claimBlock (i : Nat) (r : SearchResult) : String :=
  "## Result " ++ toString i ++ ": " ++ r.title
    ++ (if r.url = "" then "" else "\n**URL:** " ++ r.url)
    ++ (if r.snippet = "" then "" else "\n**Summary:** " ++ r.snippet)
    ++ (match r.source with
        | none => ""
        | some s => if s = "" then "" else "\n**Source:** " ++ s)
    ++ (match r.published_date with
        | none => ""
        | some s => if s = "" then "" else "\n**Published:** " ++ s)

/-- On a list whose elements all map to `some`, `filterMap` drops nothing. -/
theorem length_filterMap_of_isSome {α β : Type} (f : α → Option β) :
    ∀ l : List α, (∀ a ∈ l, (f a).isSome) → (l.filterMap f).length = l.length := by
  intro l
  induction l with
  | nil => intro _; rfl
  | cons a t ih =>
    intro h
    have ha : (f a).isSome := h a (List.mem_cons_self a t)
    obtain ⟨b, hb⟩ := Option.isSome_iff_exists.mp ha
    have ht := ih (fun x hx => h x (List.mem_cons_of_mem a hx))
    simp [List.filterMap_cons, hb, ht]

/-- On a list whose elements all map to `some`, `filterMap` acts pointwise. -/
theorem get?_filterMap_of_isSome {α β : Type} (f : α → Option β) :
    ∀ (l : List α), (∀ a ∈ l, (f a).isSome) →
      ∀ i, (l.filterMap f).get? i = (l.get? i).bind f := by
  intro l
  induction l with
  | nil => intro _ i; cases i <;> rfl
  | cons a t ih =>
    intro h i
    have ha : (f a).isSome := h a (List.mem_cons_self a t)
    obtain ⟨b, hb⟩ := Option.isSome_iff_exists.mp ha
    have ht := ih (fun x hx => h x (List.mem_cons_of_mem a hx))
    cases i with
    | zero => simp [List.filterMap_cons, hb]
    | succ n =>
      simp only [List.filterMap_cons, hb, List.get?_cons_succ]
      exact ht n

/-- A kept entry is exactly a valid one. -/
theorem toSearchResult_isSome_iff (j : Json) :
    (toSearchResult j).isSome ↔ validEntry j := by
  unfold toSearchResult validEntry
  by_cases h : jsonGetStr j "title" = "" ∨ jsonGetStr j "url" = "" <;>
    simp [h] <;> tauto

/-- A kept result carries its entry's non-empty title and url. -/
theorem toSearchResult_fields {j : Json} {r : SearchResult}
    (h : toSearchResult j = some r) :
    r.title = jsonGetStr j "title" ∧ r.url = jsonGetStr j "url" ∧
      r.title ≠ "" ∧ r.url ≠ "" ∧ r.snippet = jsonGetSnippet j := by
  unfold toSearchResult at h
  by_cases hc : jsonGetStr j "title" = "" ∨ jsonGetStr j "url" = ""
  · simp [hc] at h
  · simp [hc] at h
    push_neg at hc
    subst h
    exact ⟨rfl, rfl, hc.1, hc.2, rfl⟩

/-- C1: for every model response that decodes (directly or after cleanup) to
a JSON array of `n` valid entries, search returns exactly `min n maxResults`
items, pointwise the mapped entries in model-given order (no re-ranking), and
the outcome is independent of `minResults` — fewer than `minResults` entries
are returned as-is, with no automatic retry. -/
theorem search_truncates_and_keeps_order (content : String) (entries : List Json)
    (maxResults : Nat)
    (hdec : decodeWithRetry content = some entries)
    (hvalid : ∀ e ∈ entries, validEntry e) :
    ∃ rs, searchResponse content maxResults = .ok rs
      ∧ rs.length = min entries.length maxResults
      ∧ (∀ i, i < maxResults → rs.get? i = (entries.get? i).bind toSearchResult)
      ∧ (∀ pc query platform minResults minResults' outcome,
          provider_search pc query platform minResults maxResults outcome
            = provider_search pc query platform minResults' maxResults outcome) := by
  have hsome : ∀ e ∈ entries.take maxResults, (toSearchResult e).isSome := by
    intro e he
    exact (toSearchResult_isSome_iff e).mpr (hvalid e (List.take_subset _ _ he))
  refine ⟨(entries.take maxResults).filterMap toSearchResult, ?_, ?_, ?_, ?_⟩
  · unfold searchResponse
    rw [hdec]
  · rw [length_filterMap_of_isSome _ _ hsome, List.length_take, Nat.min_comm]
  · intro i hi
    rw [get?_filterMap_of_isSome _ _ hsome i, List.get?_take hi]
  · intro pc query platform a b outcome
    rfl

/-- Closed instance of C1: three valid entries with `maxResults = 2` keep the
first two, in order. -/
theorem search_truncates_and_keeps_order_witness :
    ∃ rs, searchResponse
        "[\x7b\"title\":\"A\",\"url\":\"a\"\x7d,\x7b\"title\":\"B\",\"url\":\"b\"\x7d,\x7b\"title\":\"C\",\"url\":\"c\"\x7d]" 2
        = .ok rs
      ∧ rs.length = min 3 2
      ∧ (∀ i, i < 2 → rs.get? i =
          (([Json.obj [("title", .str "A"), ("url", .str "a")],
             Json.obj [("title", .str "B"), ("url", .str "b")],
             Json.obj [("title", .str "C"), ("url", .str "c")]].get? i).bind toSearchResult))
      ∧ (∀ pc query platform minResults minResults' outcome,
          provider_search pc query platform minResults 2 outcome
            = provider_search pc query platform minResults' 2 outcome) :=
  search_truncates_and_keeps_order _
    [Json.obj [("title", .str "A"), ("url", .str "a")],
     Json.obj [("title", .str "B"), ("url", .str "b")],
     Json.obj [("title", .str "C"), ("url", .str "c")]] 2 rfl
    (by intro e he; fin_cases he <;> exact ⟨by decide, by decide⟩)

/-- C2: on every decoded JSON-array response, an entry without a (non-empty,
string) title or url is silently dropped — never turned into an error
record — a missing `description`/`snippet` yields the empty-string snippet
(the field is a string, never null), and every returned item has a non-empty
title and a non-empty url. -/
theorem search_drops_incomplete_entries (content : String) (entries : List Json)
    (maxResults : Nat)
    (hdec : decodeWithRetry content = some entries) :
    ∃ rs, searchResponse content maxResults = .ok rs
      ∧ (∀ r ∈ rs, r.title ≠ "" ∧ r.url ≠ "")
      ∧ (∀ e : Json, ¬ validEntry e → toSearchResult e = none)
      ∧ (∀ (e : Json) (r : SearchResult), toSearchResult e = some r →
          strValOf (getField e "description") = none →
          strValOf (getField e "snippet") = none → r.snippet = "") := by
  refine ⟨(entries.take maxResults).filterMap toSearchResult, ?_, ?_, ?_, ?_⟩
  · unfold searchResponse
    rw [hdec]
  · intro r hr
    obtain ⟨e, _, he⟩ := List.mem_filterMap.mp hr
    obtain ⟨_, _, ht, hu, _⟩ := toSearchResult_fields he
    exact ⟨ht, hu⟩
  · intro e he
    have h1 : ¬ (toSearchResult e).isSome := fun hs => he ((toSearchResult_isSome_iff e).mp hs)
    exact Option.not_isSome_iff_eq_none.mp h1
  · intro e r he hd hs
    have hsn : jsonGetSnippet e = "" := by
      unfold jsonGetSnippet
      rw [hd, hs]
      rfl
    obtain ⟨_, _, _, _, h5⟩ := toSearchResult_fields he
    rw [h5, hsn]

/-- Closed instance of C2: an entry missing its url is dropped, the kept
entry's absent description becomes the empty snippet, and what remains has
non-empty title and url. -/
theorem search_drops_incomplete_entries_witness :
    ∃ rs, searchResponse
        "[\x7b\"title\":\"A\"\x7d,\x7b\"title\":\"B\",\"url\":\"b\"\x7d]" 10 = .ok rs
      ∧ (∀ r ∈ rs, r.title ≠ "" ∧ r.url ≠ "")
      ∧ (∀ e : Json, ¬ validEntry e → toSearchResult e = none)
      ∧ (∀ (e : Json) (r : SearchResult), toSearchResult e = some r →
          strValOf (getField e "description") = none →
          strValOf (getField e "snippet") = none → r.snippet = "") :=
  search_drops_incomplete_entries _
    [Json.obj [("title", .str "A")],
     Json.obj [("title", .str "B"), ("url", .str "b")]] 10 rfl

/-- A list without a closing bracket has no last-bracket prefix. -/
theorem keepToLast_none_of_no_bracket :
    ∀ f : List Char, (∀ c ∈ f, ¬ c = ']') → keepToLast f = none := by
  intro f
  induction f with
  | nil => intro _; rfl
  | cons c cs ih =>
    intro h
    have hcs := ih (fun x hx => h x (List.mem_cons_of_mem c hx))
    have hc : ¬ c = ']' := h c (List.mem_cons_self c cs)
    simp [keepToLast, hcs, hc]

/-- The last-bracket prefix of `l ++ ']' :: f` with no bracket in `f` is
`l ++ [']']`. -/
theorem keepToLast_append_last (l f : List Char) (hf : keepToLast f = none) :
    keepToLast (l ++ ']' :: f) = some (l ++ [']']) := by
  induction l with
  | nil => simp [keepToLast, hf]
  | cons c t ih => simp [keepToLast, ih]

/-- Dropping while a predicate holds skips any block that satisfies it. -/
theorem dropWhile_append_of_forall (p : Char → Bool) :
    ∀ l r : List Char, (∀ c ∈ l, p c = true) → (l ++ r).dropWhile p = r.dropWhile p := by
  intro l r
  induction l with
  | nil => intro _; rfl
  | cons c t ih =>
    intro h
    have hc := h c (List.mem_cons_self c t)
    simp [List.dropWhile_cons, hc, ih (fun x hx => h x (List.mem_cons_of_mem c hx))]

/-- Stripping a code fence around a bracketed body recovers exactly the
body. -/
theorem cleanupList_fence (mid : List Char) :
    cleanupList (fenceOpen ++ ('[' :: mid ++ [']']) ++ fenceClose) = '[' :: mid ++ [']'] := by
  simp only [cleanupList]
  have h1 : (fenceOpen ++ ('[' :: mid ++ [']']) ++ fenceClose).dropWhile (fun c => !(c = '['))
      = ('[' :: mid) ++ (']' :: fenceClose) := by
    rw [List.append_assoc, dropWhile_append_of_forall _ fenceOpen _ (by decide)]
    show ('[' : Char) :: ((mid ++ [']']) ++ fenceClose) = ('[' :: mid) ++ (']' :: fenceClose)
    simp [List.append_assoc]
  rw [h1, keepToLast_append_last _ _ (keepToLast_none_of_no_bracket fenceClose (by decide))]

/-- A fence-wrapped response never decodes strictly: its first character is a
backquote. -/
theorem decodeArray_fenceWrap (s : String) : decodeArray (fenceWrap s) = none := rfl

/-- C4: when strict decoding fails, search retries exactly once on the
cleaned-up response: a fence-wrapped valid array yields the very same outcome
as its unwrapped equivalent, and a response failing both decodes yields the
`UpstreamFormatError` value (surfaced as an error string, never an
exception). -/
theorem search_fence_cleanup_retry (mid : List Char) (arr : List Json) (maxResults : Nat)
    (hdec : decodeArray (String.mk ('[' :: mid ++ [']'])) = some arr) :
    searchResponse (fenceWrap (String.mk ('[' :: mid ++ [']']))) maxResults
      = searchResponse (String.mk ('[' :: mid ++ [']'])) maxResults
    ∧ (∀ t, decodeArray t = none → decodeArray (cleanupResponse t) = none →
        searchResponse t maxResults = .error .upstreamFormat) := by
  have h3 : cleanupResponse (fenceWrap (String.mk ('[' :: mid ++ [']'])))
      = String.mk ('[' :: mid ++ [']']) := by
    show String.mk (cleanupList (fenceOpen ++ ('[' :: mid ++ [']']) ++ fenceClose))
      = String.mk ('[' :: mid ++ [']'])
    rw [cleanupList_fence]
  constructor
  · have h2 : decodeWithRetry (fenceWrap (String.mk ('[' :: mid ++ [']']))) = some arr := by
      simp only [decodeWithRetry, decodeArray_fenceWrap, h3, hdec]
    have h4 : decodeWithRetry (String.mk ('[' :: mid ++ [']'])) = some arr := by
      simp only [decodeWithRetry, hdec]
    unfold searchResponse
    rw [h2, h4]
  · intro t h1 h2
    simp only [searchResponse, decodeWithRetry, h1, h2]

/-- Closed instance of C4: a fence-wrapped one-entry array yields the same
outcome as the bare array, and pure garbage yields the format error. -/
theorem search_fence_cleanup_retry_witness :
    searchResponse (fenceWrap (String.mk ('[' ::
        "\x7b\"title\":\"T\",\"url\":\"u\"\x7d".toList ++ [']']))) 10
      = searchResponse (String.mk ('[' ::
        "\x7b\"title\":\"T\",\"url\":\"u\"\x7d".toList ++ [']'])) 10
    ∧ (∀ t, decodeArray t = none → decodeArray (cleanupResponse t) = none →
        searchResponse t 10 = .error .upstreamFormat) :=
  search_fence_cleanup_retry "\x7b\"title\":\"T\",\"url\":\"u\"\x7d".toList
    [Json.obj [("title", .str "T"), ("url", .str "u")]] 10 rfl

/-- Shared totality fact: every tool operation answers `.ok` with a string,
for every input and every internal outcome. -/
theorem tools_total_aux (c : ConfigData) (st : ModelStore)
    (query platform url m : String) (minResults maxResults : Nat)
    (outcome : UpstreamOutcome) (mo : ModelsOutcome) (writeOk : Bool) :
    (∃ s, web_search c st query platform minResults maxResults outcome = .ok s)
    ∧ (∃ s, web_fetch c st url outcome = .ok s)
    ∧ (∃ s, get_config_info c mo = .ok s)
    ∧ (∃ s, (switch_model st m writeOk).2 = .ok s) := by
  refine ⟨?_, ?_, ⟨_, rfl⟩, ?_⟩
  · unfold web_search
    cases resolveProviderConfig c st with
    | error e => exact ⟨_, rfl⟩
    | ok pc => exact ⟨_, rfl⟩
  · unfold web_fetch
    cases resolveProviderConfig c st with
    | error e => exact ⟨_, rfl⟩
    | ok pc => exact ⟨_, rfl⟩
  · unfold switch_model
    by_cases h : writeOk = true
    · subst h; exact ⟨_, rfl⟩
    · rw [Bool.not_eq_true] at h; subst h; exact ⟨_, rfl⟩

/-- C3: each of the four tool operations is total from the caller's
perspective — whatever the configuration, the model store, the upstream
outcome and the arguments, it returns an `.ok` string and never lets an
exception (`MissingConfigError`, `TransportError`, `UpstreamFormatError`,
`InvalidInputError` included) cross the tool boundary. -/
theorem tool_surface_total (c : ConfigData) (st : ModelStore)
    (query platform url m : String) (minResults maxResults : Nat)
    (outcome : UpstreamOutcome) (mo : ModelsOutcome) (writeOk : Bool) :
    (∃ s, web_search c st query platform minResults maxResults outcome = .ok s)
    ∧ (∃ s, web_fetch c st url outcome = .ok s)
    ∧ (∃ s, get_config_info c mo = .ok s)
    ∧ (∃ s, (switch_model st m writeOk).2 = .ok s) :=
  tools_total_aux c st query platform url m minResults maxResults outcome mo writeOk

/-- C5: a fetch URL that starts with neither scheme fails fast with
`InvalidInputError`, and no upstream request is issued — whatever the
network would have answered. -/
theorem fetch_rejects_invalid_url (url : String) (outcome : UpstreamOutcome)
    (h : validFetchUrl url = false) :
    fetchCall url outcome
      = ([], .error (.invalidInput "URL must start with http:// or https://")) := by
  unfold fetchCall
  rw [h]
  rfl

/-- Closed instance of C5 at `fetch("not-a-url")`. -/
theorem fetch_rejects_invalid_url_witness :
    validFetchUrl "not-a-url" = false
    ∧ fetchCall "not-a-url" (.ok "some markdown")
        = ([], .error (.invalidInput "URL must start with http:// or https://")) :=
  ⟨rfl, fetch_rejects_invalid_url "not-a-url" (.ok "some markdown") rfl⟩

/-- C6: the `api_url`/`api_key` accessor fails with `MissingConfigError`
exactly when the setting is absent or empty, and the tool surface turns that
per-call failure into a string prefixed "Configuration error:". -/
theorem missing_config_reported_per_call (c : ConfigData) :
    ((∃ m, grok_api_url c = .error (.missingConfig m)) ↔
        (c.grok.api_url = none ∨ c.grok.api_url = some ""))
    ∧ ((∃ m, grok_api_key c = .error (.missingConfig m)) ↔
        (c.grok.api_key = none ∨ c.grok.api_key = some ""))
    ∧ (∀ (st : ModelStore) (query platform : String) (minResults maxResults : Nat)
        (outcome : UpstreamOutcome) (m : String),
        grok_api_url c = .error (.missingConfig m) →
        web_search c st query platform minResults maxResults outcome
          = .ok ("Configuration error: " ++ m)) := by
  refine ⟨?_, ?_, ?_⟩
  · unfold grok_api_url
    cases hu : c.grok.api_url with
    | none => simp
    | some u =>
      by_cases he : u = "" <;> simp [he]
  · unfold grok_api_key
    cases hk : c.grok.api_key with
    | none => simp
    | some k =>
      by_cases he : k = "" <;> simp [he]
  · intro st query platform minResults maxResults outcome m hm
    simp only [web_search, resolveProviderConfig, hm, configErrMsg]

/-- Closed instance of C6: with `grok.api_url` absent, `web_search` answers
the configuration-error string instead of raising. -/
theorem missing_config_reported_per_call_witness :
    web_search ⟨⟨none, some "key"⟩, false⟩ ⟨none, none, "grok-4-fast"⟩
        "q" "" 3 10 (.ok "[]")
      = .ok ("Configuration error: " ++ "grok.api_url not configured") :=
  (missing_config_reported_per_call ⟨⟨none, some "key"⟩, false⟩).2.2
    ⟨none, none, "grok-4-fast"⟩ "q" "" 3 10 (.ok "[]")
    "grok.api_url not configured" rfl

/-- C7 as stated fails on the modelled precedence rules: with a
model environment override in place, `switch_model "x"` succeeds (the file
value is persisted) yet a fresh resolution still yields the environment's
model, not "x". -/
theorem switch_model_env_override_cex :
    resolveProviderConfig ⟨⟨some "u", some "k"⟩, false⟩
        ((switch_model ⟨some "env-model", none, "grok-4-fast"⟩ "x" true).1)
      = .ok ⟨"u", "k", "env-model"⟩
    ∧ (switch_model ⟨some "env-model", none, "grok-4-fast"⟩ "x" true).1.fileModel
        = some "x"
    ∧ "env-model" ≠ "x" :=
  ⟨rfl, rfl, by decide⟩

/-- C7 (amended): provided no environment override for the model is set,
after `switch_model m` every fresh config resolution yields model `m`, while
a call in flight keeps the `ProviderConfig` (and hence the request model) it
resolved at call start from the previous store. -/
theorem switch_model_call_time_binding (c : ConfigData) (st : ModelStore)
    (pc : ProviderConfig) (m query platform : String) (minResults maxResults : Nat)
    (henv : st.envModel = none)
    (hres : resolveProviderConfig c st = .ok pc) :
    resolveProviderConfig c (set_model st m) = .ok { pc with model := m }
    ∧ (switch_model st m true).1 = set_model st m
    ∧ pc.model = resolveModel st
    ∧ (buildSearchRequest pc query platform minResults maxResults).model
        = resolveModel st := by
  unfold resolveProviderConfig at hres ⊢
  cases hu : grok_api_url c with
  | error e => rw [hu] at hres; exact absurd hres (by simp)
  | ok u =>
    rw [hu] at hres
    cases hk : grok_api_key c with
    | error e => rw [hk] at hres; exact absurd hres (by simp)
    | ok k =>
      rw [hk] at hres
      injection hres with hpc
      subst hpc
      have hm : resolveModel (set_model st m) = m := by
        simp [resolveModel, set_model, henv]
      refine ⟨?_, rfl, rfl, rfl⟩
      rw [hm]

/-- Closed instance of the amended C7: with no environment override,
switching to "x" makes the next resolution yield "x" while the captured
in-flight config still carries "old-model". -/
theorem switch_model_call_time_binding_witness :
    resolveProviderConfig ⟨⟨some "u", some "k"⟩, false⟩
        (set_model ⟨none, some "old-model", "grok-4-fast"⟩ "x")
      = .ok { api_url := "u", api_key := "k", model := "x" }
    ∧ (switch_model ⟨none, some "old-model", "grok-4-fast"⟩ "x" true).1
        = set_model ⟨none, some "old-model", "grok-4-fast"⟩ "x"
    ∧ (⟨"u", "k", "old-model"⟩ : ProviderConfig).model
        = resolveModel ⟨none, some "old-model", "grok-4-fast"⟩
    ∧ (buildSearchRequest ⟨"u", "k", "old-model"⟩ "q" "" 3 10).model
        = resolveModel ⟨none, some "old-model", "grok-4-fast"⟩ :=
  switch_model_call_time_binding ⟨⟨some "u", some "k"⟩, false⟩
    ⟨none, some "old-model", "grok-4-fast"⟩ ⟨"u", "k", "old-model"⟩
    "x" "q" "" 3 10 rfl rfl

/-- C8: when the models endpoint answers HTTP 200 with a body whose `data`
field is a non-empty array of objects carrying ids, the connection test
reports the elapsed time (a natural number, hence `≥ 0`) and an
`available_models` list holding exactly those ids. -/
theorem config_info_reports_models (c : ConfigData) (body : String) (j : Json)
    (xs ids : List Json) (elapsed : Nat)
    (hu : ∃ u, grok_api_url c = .ok u) (hk : ∃ k, grok_api_key c = .ok k)
    (hbody : jsonDecode body = some j)
    (hdata : getField j "data" = some (.arr xs))
    (hids : ∀ x ∈ xs, (getField x "id").isSome)
    (hne : xs ≠ [])
    (hideq : xs.filterMap (fun x => getField x "id") = ids) :
    connection_test c (.response 200 body elapsed)
      = { status := "✅ Connection successful",
          message := "Successfully retrieved model list (HTTP 200), total "
            ++ toString xs.length ++ " models",
          response_time_ms := elapsed,
          available_models := some ids }
    ∧ ids ≠ [] ∧ ids.length = xs.length ∧ 0 ≤ elapsed := by
  obtain ⟨u, hu⟩ := hu
  obtain ⟨k, hk⟩ := hk
  have hlen : ids.length = xs.length := by
    rw [← hideq]
    exact length_filterMap_of_isSome _ _ hids
  have hne2 : ids ≠ [] := by
    intro h0
    apply hne
    rw [h0] at hlen
    exact List.length_eq_zero.mp hlen.symm
  have hm : modelIdsOf body = some (xs.length, ids) := by
    simp only [modelIdsOf, hbody, hdata, hideq]
  refine ⟨?_, hne2, hlen, Nat.zero_le _⟩
  unfold connection_test
  rw [hu, hk]
  simp [hm, List.isEmpty_iff, hne2]

/-- Closed instance of C8: two model entries are reported verbatim with the
measured latency. -/
theorem config_info_reports_models_witness :
    connection_test ⟨⟨some "u", some "k"⟩, false⟩
        (.response 200 "\x7b\"data\":[\x7b\"id\":\"grok-4\"\x7d,\x7b\"id\":\"grok-3\"\x7d]\x7d" 12)
      = { status := "✅ Connection successful",
          message := "Successfully retrieved model list (HTTP 200), total "
            ++ toString ([Json.obj [("id", Json.str "grok-4")],
                Json.obj [("id", Json.str "grok-3")]].length) ++ " models",
          response_time_ms := 12,
          available_models := some [Json.str "grok-4", Json.str "grok-3"] }
    ∧ ([Json.str "grok-4", Json.str "grok-3"] : List Json) ≠ []
    ∧ ([Json.str "grok-4", Json.str "grok-3"] : List Json).length
        = ([Json.obj [("id", Json.str "grok-4")],
            Json.obj [("id", Json.str "grok-3")]] : List Json).length
    ∧ 0 ≤ 12 :=
  config_info_reports_models ⟨⟨some "u", some "k"⟩, false⟩
    "\x7b\"data\":[\x7b\"id\":\"grok-4\"\x7d,\x7b\"id\":\"grok-3\"\x7d]\x7d"
    (Json.obj [("data", Json.arr [Json.obj [("id", Json.str "grok-4")],
        Json.obj [("id", Json.str "grok-3")]])])
    [Json.obj [("id", Json.str "grok-4")], Json.obj [("id", Json.str "grok-3")]]
    [Json.str "grok-4", Json.str "grok-3"] 12
    ⟨"u", rfl⟩ ⟨"k", rfl⟩ rfl rfl
    (by intro x hx; fin_cases hx <;> rfl)
    (List.cons_ne_nil _ _) rfl

/-- C9 as stated fails on the code: a present but unparsable configuration
file also aborts startup, so "file absent" is not the only fatal
condition. -/
theorem startup_fatal_not_only_absent :
    (∃ e, load_config ConfigFile.malformed = .error e)
    ∧ ConfigFile.malformed ≠ ConfigFile.absent :=
  ⟨⟨.otherError "TOMLDecodeError", rfl⟩, by simp⟩

/-- C9 (amended): an unrecoverable configuration-file read failure at
startup — the file absent or unparsable — is the only fatal condition:
`load_config` fails exactly then, and no tool-surface failure ever
terminates the process (each operation still answers a string). -/
theorem startup_fatal_only_config_read (f : ConfigFile) (c : ConfigData)
    (st : ModelStore) (query platform url m : String) (minResults maxResults : Nat)
    (outcome : UpstreamOutcome) (mo : ModelsOutcome) (writeOk : Bool) :
    ((∃ e, load_config f = .error e) ↔ (f = .absent ∨ f = .malformed))
    ∧ (∃ s, web_search c st query platform minResults maxResults outcome = .ok s)
    ∧ (∃ s, web_fetch c st url outcome = .ok s)
    ∧ (∃ s, get_config_info c mo = .ok s)
    ∧ (∃ s, (switch_model st m writeOk).2 = .ok s) := by
  refine ⟨?_, tools_total_aux c st query platform url m minResults maxResults outcome mo writeOk⟩
  cases f with
  | absent => simp [load_config]
  | malformed => simp [load_config]
  | parsed d => simp [load_config]

theorem fold_nl_url (x : String) : "\n" ++ ("**URL:** " ++ x) = "\n**URL:** " ++ x := by
  rw [← String.append_assoc]
  rfl

theorem fold_nl_summary (x : String) :
    "\n" ++ ("**Summary:** " ++ x) = "\n**Summary:** " ++ x := by
  rw [← String.append_assoc]
  rfl

theorem fold_nl_source (x : String) :
    "\n" ++ ("**Source:** " ++ x) = "\n**Source:** " ++ x := by
  rw [← String.append_assoc]
  rfl

theorem fold_nl_published (x : String) :
    "\n" ++ ("**Published:** " ++ x) = "\n**Published:** " ++ x := by
  rw [← String.append_assoc]
  rfl

/-- The formatter's block agrees with the claim-level layout. -/
theorem format_one_eq_claimBlock (i : Nat) (r : SearchResult) :
    format_one i r = claimBlock i r := by
  rcases r with ⟨t, u, sn, so, pd⟩
  unfold format_one claimBlock
  rcases so with _ | s1 <;> rcases pd with _ | s2 <;>
    dsimp only <;>
    split_ifs <;>
    simp_all [String.intercalate, String.intercalate.go, String.append_assoc,
      fold_nl_url, fold_nl_summary, fold_nl_source, fold_nl_published]

/-- The formatter's enumeration loop is `enumFrom`. -/
theorem format_blocks_enumFrom (rs : List SearchResult) :
    ∀ i, format_blocks i rs = (rs.enumFrom i).map (fun p => claimBlock p.1 p.2) := by
  induction rs with
  | nil => intro i; rfl
  | cons r t ih =>
    intro i
    simp [format_blocks, format_one_eq_claimBlock, ih (i + 1)]

/-- C10: the empty list formats as "No results found."; a non-empty list
formats as one block per result in input order, numbered from 1, each block
laid out as `claimBlock` describes, and the blocks joined by the horizontal
rule separator. -/
theorem format_results_layout :
    format_search_results [] = "No results found."
    ∧ ∀ rs : List SearchResult, rs ≠ [] →
        format_search_results rs
          = String.intercalate "\n\n---\n\n"
              ((rs.enumFrom 1).map (fun p => claimBlock p.1 p.2)) := by
  refine ⟨rfl, ?_⟩
  intro rs h
  unfold format_search_results
  rw [if_neg (by simp [h]), format_blocks_enumFrom rs 1]

/-- Closed instance of C10: a two-result list with mixed optional fields. -/
theorem format_results_layout_witness :
    format_search_results
        [⟨"T1", "u1", "sn1", some "src", none⟩, ⟨"T2", "u2", "", none, some "2024"⟩]
      = String.intercalate "\n\n---\n\n"
          ((([⟨"T1", "u1", "sn1", some "src", none⟩,
              ⟨"T2", "u2", "", none, some "2024"⟩] : List SearchResult).enumFrom 1).map
            (fun p => claimBlock p.1 p.2)) :=
  format_results_layout.2
    [⟨"T1", "u1", "sn1", some "src", none⟩, ⟨"T2", "u2", "", none, some "2024"⟩]
    (by simp)

